import Mathlib

/-!
Shallow embedding of the `dask_k8` package (files `dask_k8/cluster.py` and
`dask_k8/default_configs.py`): the `DaskCluster` lifecycle controller that
creates, scales, connects to and tears down a Dask cluster inside a
Kubernetes namespace.

External collaborators are modelled as oracles supplying their responses:
the Kubernetes API (service/deployment creation responses, pod-list poll
responses, deletion outcomes) and the dask `Client` constructor (a stream
of connection-attempt outcomes).  Each operation returns its resulting
controller state together with the list of platform calls it issued, so
that call-counting and frame properties can be stated.
-/

namespace DaskK8

/-- One environment entry of a container (`kube_client.V1EnvVar`). -/
structure EnvVar where
  name : String
  value : String
deriving DecidableEq, Repr

/-- A container of a pod template, with the recognized fields of the
default configs (`image`, `args`, `env`) and the remaining fields kept
opaque as key/value pairs (`imagePullPolicy`, `resources`, ...). -/
structure Container where
  image : String
  args : List String
  env : List EnvVar
  other : List (String × String)
deriving DecidableEq, Repr

/-- A parsed pod specification (`yaml.safe_load` of a pod-spec string):
a list of containers.  YAML parsing itself is out of scope. -/
structure PodSpec where
  containers : List Container
deriving DecidableEq, Repr

/-- A call issued against the Kubernetes API, as observed by the platform. -/
inductive PlatformCall where
  | createService (ns nm : String) (port : Nat) (selector : List (String × String))
  | createDeployment (ns nm : String) (replicas : Nat)
      (labels : List (String × String)) (template : PodSpec)
  | patchDeployment (ns nm : String) (replicas : Nat)
  | deleteService (ns nm : String)
  | deleteDeployment (ns nm : String)
  | listPods (ns selector : String)
deriving DecidableEq, Repr

/-- The `DaskCluster` object state (`cluster.py`, `__init__`): constructor
arguments plus the mutable fields `_initialized`, `_scheduler`,
`_dashboard`, `_client`.  The memoized dask client is modelled as an
abstract numeric handle. -/
structure DaskCluster where
  namespace' : String
  cluster_id : String
  scheduler_pod_spec : PodSpec
  worker_pod_spec : PodSpec
  _initialized : Bool
  _scheduler : Option String
  _dashboard : Option String
  _client : Option Nat
deriving DecidableEq, Repr

/-- `name_scheduler_service` property: `f"dask-scheduler-{self.cluster_id}"`. -/
def DaskCluster.name_scheduler_service (st : DaskCluster) : String :=
  "dask-scheduler-" ++ st.cluster_id

/-- `name_scheduler_dashboard_service` property:
`f"dask-scheduler-{self.cluster_id}-dashboard"`. -/
def DaskCluster.name_scheduler_dashboard_service (st : DaskCluster) : String :=
  "dask-scheduler-" ++ st.cluster_id ++ "-dashboard"

/-- `name_scheduler_deployment` property: returns `self.name_scheduler_service`. -/
def DaskCluster.name_scheduler_deployment (st : DaskCluster) : String :=
  st.name_scheduler_service

/-- `name_workers_deployment` property: `f"dask-workers-{self.cluster_id}"`. -/
def DaskCluster.name_workers_deployment (st : DaskCluster) : String :=
  "dask-workers-" ++ st.cluster_id

/-- The four derived resource names bundled together. -/
def DaskCluster.resourceNames (st : DaskCluster) : String × String × String × String :=
  (st.name_scheduler_service, st.name_scheduler_dashboard_service,
   st.name_scheduler_deployment, st.name_workers_deployment)

/-- The label/selector dict `{"app": "dask-scheduler", "user": cluster_id}`
used by both services and by the scheduler deployment. -/
def schedulerLabels (cid : String) : List (String × String) :=
  [("app", "dask-scheduler"), ("user", cid)]

/-- The label dict `{"app": "dask-workers", "user": cluster_id}` of the
worker deployment. -/
def workerLabels (cid : String) : List (String × String) :=
  [("app", "dask-workers"), ("user", cid)]

/-- The label-selector string `f"user={self.cluster_id},app=dask-scheduler"`
of the host-IP discovery poll. -/
def schedulerPodSelector (cid : String) : String :=
  "user=" ++ cid ++ ",app=dask-scheduler"

/-- The platform's response to `create_namespaced_service`: the created
service's `spec.cluster_ip`, `spec.ports[0].port` and `spec.ports[0].node_port`. -/
structure ServiceCreated where
  cluster_ip : String
  port : Nat
  node_port : Nat
deriving DecidableEq, Repr

/-- One pod in a `list_namespaced_pod` response: its `status.host_ip`,
which is `None` until Kubernetes schedules the pod onto a node. -/
structure PodStatus where
  host_ip : Option String
deriving DecidableEq, Repr

/-- Oracle for one run of `create`: the two service-creation responses and
the successive `list_namespaced_pod` responses seen by the discovery loop. -/
structure CreateOracle where
  serviceSchedulerResp : ServiceCreated
  serviceDashboardResp : ServiceCreated
  podPolls : List (List PodStatus)
deriving DecidableEq, Repr

/-- How a run of `create` can fail in the model: `emptyContainers` is the
KeyError/IndexError of `worker_pod_spec['containers'][0]['env']` on a
template with no container, `podIndexError` the IndexError of `.items[0]`
on an empty pod list, and `pollPending` means the unbounded discovery loop
is still polling when the supplied finite oracle trace runs out. -/
inductive CreateErr where
  | emptyContainers
  | podIndexError
  | pollPending
deriving DecidableEq, Repr

/-- Result of a run of `create`. -/
structure CreateOut where
  err : Option CreateErr
  st : DaskCluster
  calls : List PlatformCall
deriving DecidableEq, Repr

/-- The host-IP discovery loop (`cluster.py` lines 110-116): repeatedly
list the pods matching the scheduler selector, index `.items[0]` without a
guard, stop when its `status.host_ip` is not `None`, otherwise sleep and
retry.  Returns the outcome together with the number of poll requests
issued. -/
def findHostIP : List (List PodStatus) → Except CreateErr String × Nat
  | [] => (Except.error CreateErr.pollPending, 0)
  | [] :: _ => (Except.error CreateErr.podIndexError, 1)
  | ((p :: _) :: rest) =>
    match p.host_ip with
    | some ip => (Except.ok ip, 1)
    | none =>
      let r := findHostIP rest
      (r.1, r.2 + 1)

/-- `worker_pod_spec['containers'][0]['env'].append(V1EnvVar(name="DASK_SCHEDULER_ADDRESS", value=addr))`:
appends one environment entry to the first container; fails (IndexError)
when the template has no container. -/
def injectWorkerEnv (spec : PodSpec) (addr : String) : Option PodSpec :=
  match spec.containers with
  | [] => none
  | c :: rest =>
    some ⟨{ c with env := c.env ++ [⟨"DASK_SCHEDULER_ADDRESS", addr⟩] } :: rest⟩

/-- `DaskCluster.create`: creates the two NodePort services (ports 8786 and
8787), records the scheduler service's internal `cluster_ip:port` and both
`node_port`s, builds the scheduler deployment (1 replica) and the worker
deployment (0 replicas, with the scheduler address injected into the first
container's env), submits both, then polls for the scheduler pod's host IP
and stores `tcp://host:nodePort` and `http://host:dashboardNodePort`. -/
def DaskCluster.create (st : DaskCluster) (o : CreateOracle) : CreateOut :=
  let svcCalls : List PlatformCall :=
    [PlatformCall.createService st.namespace' st.name_scheduler_service 8786
       (schedulerLabels st.cluster_id),
     PlatformCall.createService st.namespace' st.name_scheduler_dashboard_service 8787
       (schedulerLabels st.cluster_id)]
  let internalAddr :=
    o.serviceSchedulerResp.cluster_ip ++ ":" ++ toString o.serviceSchedulerResp.port
  match injectWorkerEnv st.worker_pod_spec internalAddr with
  | none => ⟨some CreateErr.emptyContainers, st, svcCalls⟩
  | some workerSpec =>
    let depCalls : List PlatformCall :=
      [PlatformCall.createDeployment st.namespace' st.name_scheduler_deployment 1
         (schedulerLabels st.cluster_id) st.scheduler_pod_spec,
       PlatformCall.createDeployment st.namespace' st.name_workers_deployment 0
         (workerLabels st.cluster_id) workerSpec]
    let poll := findHostIP o.podPolls
    let pollCalls : List PlatformCall :=
      List.replicate poll.2
        (PlatformCall.listPods st.namespace' (schedulerPodSelector st.cluster_id))
    let allCalls := svcCalls ++ depCalls ++ pollCalls
    match poll.1 with
    | Except.error e => ⟨some e, st, allCalls⟩
    | Except.ok ip =>
      ⟨none,
       { st with
           _initialized := true,
           _scheduler :=
             some ("tcp://" ++ ip ++ ":" ++ toString o.serviceSchedulerResp.node_port),
           _dashboard :=
             some ("http://" ++ ip ++ ":" ++ toString o.serviceDashboardResp.node_port) },
       allCalls⟩

/-- Platform outcome of one deletion request in `close`. -/
inductive DelResult where
  | ok
  | apiError
deriving DecidableEq, Repr

/-- Oracle for one run of `close`: the outcomes of the four deletion
requests (each is wrapped in `try/except Exception: pass` in the source,
so every outcome is swallowed). -/
structure CloseOracle where
  deleteServiceScheduler : DelResult
  deleteServiceDashboard : DelResult
  deleteDeploymentScheduler : DelResult
  deleteDeploymentWorkers : DelResult
deriving DecidableEq, Repr

/-- `DaskCluster.close`: attempts the four deletions in order — the two
services, then the scheduler deployment (addressed, as in the source, by
the scheduler *service* name) and the worker deployment — each failure
caught and discarded individually, then clears `_initialized` and drops
the memoized client.  Total by construction: no oracle outcome can stop
any of the four attempts or change the result. -/
def DaskCluster.close (st : DaskCluster) (_o : CloseOracle) :
    DaskCluster × List PlatformCall :=
  ({ st with _initialized := false, _client := none },
   [PlatformCall.deleteService st.namespace' st.name_scheduler_service,
    PlatformCall.deleteService st.namespace' st.name_scheduler_dashboard_service,
    PlatformCall.deleteDeployment st.namespace' st.name_scheduler_service,
    PlatformCall.deleteDeployment st.namespace' st.name_workers_deployment])

/-- Outcome of one `Client(self._scheduler, timeout=timeout)` attempt:
success with a handle, or one of the two caught exception types. -/
inductive ConnAttempt where
  | ok (handle : Nat)
  | oserror
  | timeouterror
deriving DecidableEq, Repr

/-- Whether a connection attempt succeeded. -/
def ConnAttempt.isOk : ConnAttempt → Bool
  | ConnAttempt.ok _ => true
  | _ => false

/-- Errors of `make_dask_client` / `scale`: the `ValueError("Cluster is not
initalized")` raised before doing anything, the AttributeError that calling
`scheduler_info()` on a still-`None` client would raise, and the artifact
of exhausting the finite worker-count oracle while the unbounded blocking
loop is still waiting. -/
inductive ClusterErr where
  | uninitialized
  | noneClient
  | stillWaiting
deriving DecidableEq, Repr

/-- Result of a run of `make_dask_client`. -/
structure ConnectOut where
  err : Option ClusterErr
  st : DaskCluster
  ret : Option Nat
  attempts : Nat
deriving DecidableEq, Repr

/-- The body of the retry `for` loop of `make_dask_client`, lines 165-169:
iterate `i` over `range(retries)`, each iteration attempts a connection and
overwrites `self._client` on success; there is no `break`, so every
iteration runs and the final value is that of the last successful attempt. -/
def connectFold (orc : Nat → ConnAttempt) (retries : Nat) : Option Nat :=
  (List.range retries).foldl
    (fun acc i =>
      match orc i with
      | ConnAttempt.ok h => some h
      | _ => acc)
    none

/-- `DaskCluster.make_dask_client`: raises if not initialized; returns the
memoized client when one exists; otherwise runs the retry loop over exactly
`retries` oracle outcomes, memoizes the result and returns it.  `attempts`
counts the `Client(...)` constructor calls made. -/
def DaskCluster.make_dask_client (st : DaskCluster) (orc : Nat → ConnAttempt)
    (timeout retries : Nat) : ConnectOut :=
  if st._initialized = false then
    ⟨some ClusterErr.uninitialized, st, none, 0⟩
  else
    match st._client with
    | some c => ⟨none, st, some c, 0⟩
    | none =>
      let final := connectFold orc retries
      ⟨none, { st with _client := final }, final, retries⟩

/-- The blocking wait of `scale`, lines 201-208: repeatedly sleep then read
the live worker count; stop at the first reading equal to `n`.  Given the
finite trace of successive readings, returns the index of the reading on
which the loop exited, or `none` when the trace ends while still waiting. -/
def waitForWorkers (n : Nat) : List Nat → Option Nat
  | [] => none
  | c :: rest => if c = n then some 0 else (waitForWorkers n rest).map (· + 1)

/-- Result of a run of `scale`: error if any, final controller state, the
platform calls issued, the number of live-worker-count queries made, the
number of client connection attempts made, and the index of the worker-count
reading on which the blocking wait exited. -/
structure ScaleOut where
  err : Option ClusterErr
  st : DaskCluster
  calls : List PlatformCall
  countQueries : Nat
  connAttempts : Nat
  stoppedAt : Option Nat
deriving DecidableEq, Repr

/-- `DaskCluster.scale`: raises if not initialized; patches the worker
deployment's replica count to `n`; when `blocking`, obtains a client via
`make_dask_client` (defaults `timeout=10`, `retries=20`) and loops on the
live worker count until it equals `n` exactly. -/
def DaskCluster.scale (st : DaskCluster) (n : Nat) (blocking : Bool)
    (orc : Nat → ConnAttempt) (counts : List Nat) : ScaleOut :=
  if st._initialized = false then
    ⟨some ClusterErr.uninitialized, st, [], 0, 0, none⟩
  else
    let patchCall :=
      PlatformCall.patchDeployment st.namespace' st.name_workers_deployment n
    if blocking = false then
      ⟨none, st, [patchCall], 0, 0, none⟩
    else
      let mk := st.make_dask_client orc 10 20
      match mk.ret with
      | none => ⟨some ClusterErr.noneClient, mk.st, [patchCall], 0, mk.attempts, none⟩
      | some _ =>
        match waitForWorkers n counts with
        | some k => ⟨none, mk.st, [patchCall], k + 1, mk.attempts, some k⟩
        | none =>
          ⟨some ClusterErr.stillWaiting, mk.st, [patchCall],
           counts.length, mk.attempts, none⟩

/-! ### Helper lemmas -/

/-- The blocking wait stops exactly at the first reading equal to `n`. -/
theorem waitForWorkers_eq_some (n : Nat) :
    ∀ (counts : List Nat) (k : Nat), waitForWorkers n counts = some k →
      counts[k]? = some n ∧ ∀ j, j < k → counts[j]? ≠ some n := by
  intro counts
  induction counts with
  | nil => intro k h; simp [waitForWorkers] at h
  | cons c rest ih =>
    intro k h
    by_cases hc : c = n
    · rw [waitForWorkers, if_pos hc] at h
      cases h
      exact ⟨by simpa using hc, fun j hj => absurd hj (Nat.not_lt_zero j)⟩
    · rw [waitForWorkers, if_neg hc] at h
      rcases hk : waitForWorkers n rest with _ | k'
      · rw [hk] at h; simp at h
      · rw [hk] at h
        rw [Option.map_some'] at h
        obtain ⟨h1, h2⟩ := ih k' hk
        cases h
        refine ⟨by simpa using h1, ?_⟩
        intro j hj
        cases j with
        | zero => simpa using hc
        | succ j' =>
          have := h2 j' (Nat.lt_of_succ_lt_succ hj)
          simpa using this

/-- Peeling the last iteration off the retry loop. -/
theorem connectFold_succ (orc : Nat → ConnAttempt) (r : Nat) :
    connectFold orc (r + 1) =
      match orc r with
      | ConnAttempt.ok h => some h
      | _ => connectFold orc r := by
  unfold connectFold
  rw [List.range_succ, List.foldl_append]
  simp

/-- If every attempt fails, the loop produces no client. -/
theorem connectFold_all_fail (orc : Nat → ConnAttempt) :
    ∀ r, (∀ i, i < r → (orc i).isOk = false) → connectFold orc r = none := by
  intro r
  induction r with
  | zero => intro _; rfl
  | succ r ih =>
    intro h
    rw [connectFold_succ]
    have hr := h r (Nat.lt_succ_self r)
    cases ho : orc r with
    | ok hh => rw [ho] at hr; simp [ConnAttempt.isOk] at hr
    | oserror => exact ih fun i hi => h i (Nat.lt_succ_of_lt hi)
    | timeouterror => exact ih fun i hi => h i (Nat.lt_succ_of_lt hi)

/-- The loop produces the handle of the last successful attempt. -/
theorem connectFold_last_ok (orc : Nat → ConnAttempt) (j hdl : Nat) :
    ∀ r, j < r → orc j = ConnAttempt.ok hdl →
      (∀ i, j < i → i < r → (orc i).isOk = false) →
      connectFold orc r = some hdl := by
  intro r
  induction r with
  | zero => intro hj; exact absurd hj (Nat.not_lt_zero j)
  | succ r ih =>
    intro hjr hoj hafter
    rw [connectFold_succ]
    by_cases hje : j = r
    · subst hje; rw [hoj]
    · have hlt : j < r := Nat.lt_of_le_of_ne (Nat.lt_succ_iff.mp hjr) hje
      have hrfail := hafter r hlt (Nat.lt_succ_self r)
      cases ho : orc r with
      | ok hh => rw [ho] at hrfail; simp [ConnAttempt.isOk] at hrfail
      | oserror =>
        exact ih hlt hoj fun i hji hir => hafter i hji (Nat.lt_succ_of_lt hir)
      | timeouterror =>
        exact ih hlt hoj fun i hji hir => hafter i hji (Nat.lt_succ_of_lt hir)

/-- The discovery loop never hits the indexing error when every poll
response is non-empty. -/
theorem findHostIP_nonempty (polls : List (List PodStatus))
    (h : ∀ r ∈ polls, r ≠ []) :
    (findHostIP polls).1 ≠ Except.error CreateErr.podIndexError := by
  induction polls with
  | nil => simp [findHostIP]
  | cons r rest ih =>
    match r with
    | [] => exact absurd rfl (h [] (List.mem_cons_self _ _))
    | p :: ps =>
      cases hip : p.host_ip with
      | some ip => simp [findHostIP, hip]
      | none =>
        simp only [findHostIP, hip]
        exact ih fun r' hr' => h r' (List.mem_cons_of_mem _ hr')

/-- When the responses up to some point are non-empty but host-less and the
next response is empty, the discovery loop stops there with the indexing
error, after exactly `pre.length + 1` poll requests. -/
theorem findHostIP_empty_hit :
    ∀ (pre post : List (List PodStatus)),
      (∀ r ∈ pre, ∃ p ps, r = p :: ps ∧ p.host_ip = none) →
      findHostIP (pre ++ [] :: post) =
        (Except.error CreateErr.podIndexError, pre.length + 1) := by
  intro pre
  induction pre with
  | nil => intro post _; rfl
  | cons r rest ih =>
    intro post h
    obtain ⟨p, ps, hr, hip⟩ := h r (List.mem_cons_self _ _)
    subst hr
    have hrest := ih post fun r' hr' => h r' (List.mem_cons_of_mem _ hr')
    simp [findHostIP, hip, hrest]

/-! ### Concrete sample inputs -/

/-- A worker container in the shape of `default_configs.worker_pod_spec_yaml`. -/
def sampleContainer : Container :=
  { image := "daskdev/dask:1.2.0",
    args := ["dask-worker"],
    env := [⟨"EXTRA_PIP_PACKAGES", "s3fs"⟩],
    other := [("imagePullPolicy", "Always")] }

/-- A one-container pod template. -/
def sampleSpec : PodSpec := ⟨[sampleContainer]⟩

/-- A freshly constructed, not yet created controller for `("ns1", "alice")`. -/
def freshCluster : DaskCluster :=
  { namespace' := "ns1", cluster_id := "alice",
    scheduler_pod_spec := sampleSpec, worker_pod_spec := sampleSpec,
    _initialized := false, _scheduler := none, _dashboard := none, _client := none }

/-- The same controller after a successful `create`, with no memoized client. -/
def readyCluster : DaskCluster :=
  { freshCluster with
      _initialized := true,
      _scheduler := some "tcp://10.0.0.5:31000",
      _dashboard := some "http://10.0.0.5:31001" }

/-- A controller constructed with the same `cluster_id` but a different
namespace, different templates and different mutable state. -/
def otherCluster : DaskCluster :=
  { namespace' := "ns2", cluster_id := "alice",
    scheduler_pod_spec := ⟨[]⟩, worker_pod_spec := ⟨[]⟩,
    _initialized := true, _scheduler := none, _dashboard := none, _client := some 7 }

/-- A teardown run on which every deletion request fails. -/
def allFailOracle : CloseOracle :=
  ⟨DelResult.apiError, DelResult.apiError, DelResult.apiError, DelResult.apiError⟩

/-- A connection oracle whose attempt `i` succeeds with handle `i`. -/
def sampleOrc : Nat → ConnAttempt := fun i => ConnAttempt.ok i

/-! ### Claims -/

/-- C3: on an uninitialized controller, `scale` and `make_dask_client` both
fail with the uninitialized-cluster error, issue no platform call, make no
connection attempt or worker-count query, and leave the state unchanged. -/
theorem C3_uninitialized_rejected (st : DaskCluster) (n : Nat) (b : Bool)
    (orc orc' : Nat → ConnAttempt) (counts : List Nat) (timeout retries : Nat)
    (h : st._initialized = false) :
    st.scale n b orc counts = ⟨some ClusterErr.uninitialized, st, [], 0, 0, none⟩ ∧
    st.make_dask_client orc' timeout retries =
      ⟨some ClusterErr.uninitialized, st, none, 0⟩ := by
  constructor
  · simp [DaskCluster.scale, h]
  · simp [DaskCluster.make_dask_client, h]

/-- Witness for C3 at the concrete fresh controller. -/
theorem C3_uninitialized_rejected_witness :
    freshCluster._initialized = false ∧
    (freshCluster.scale 3 true sampleOrc [3] =
       ⟨some ClusterErr.uninitialized, freshCluster, [], 0, 0, none⟩ ∧
     freshCluster.make_dask_client sampleOrc 10 20 =
       ⟨some ClusterErr.uninitialized, freshCluster, none, 0⟩) :=
  ⟨rfl, C3_uninitialized_rejected freshCluster 3 true sampleOrc sampleOrc [3] 10 20 rfl⟩

/-- C4: `close` always completes, in every controller state and for every
combination of platform deletion outcomes: all four deletion requests (two
services, two deployments) are issued regardless of which of them fail, the
result does not depend on the deletion outcomes at all, `_initialized` is
cleared and the memoized client dropped, and a second `close` behaves
identically. -/
theorem C4_close_best_effort (st : DaskCluster) (o o' : CloseOracle) :
    (st.close o).1._initialized = false ∧
    (st.close o).1._client = none ∧
    (st.close o).2 =
      [PlatformCall.deleteService st.namespace' st.name_scheduler_service,
       PlatformCall.deleteService st.namespace' st.name_scheduler_dashboard_service,
       PlatformCall.deleteDeployment st.namespace' st.name_scheduler_service,
       PlatformCall.deleteDeployment st.namespace' st.name_workers_deployment] ∧
    st.close o = st.close o' ∧
    ((st.close o).1.close o').2 = (st.close o).2 ∧
    ((st.close o).1.close o').1 = (st.close o).1 :=
  ⟨rfl, rfl, rfl, rfl, rfl, rfl⟩

/-- C10: `close` modifies only `_initialized` and `_client`; the resolved
addresses, namespace, cluster id and both pod templates survive teardown. -/
theorem C10_close_frame (st : DaskCluster) (o : CloseOracle) :
    (st.close o).1 = { st with _initialized := false, _client := none } ∧
    (st.close o).1.namespace' = st.namespace' ∧
    (st.close o).1.cluster_id = st.cluster_id ∧
    (st.close o).1.scheduler_pod_spec = st.scheduler_pod_spec ∧
    (st.close o).1.worker_pod_spec = st.worker_pod_spec ∧
    (st.close o).1._scheduler = st._scheduler ∧
    (st.close o).1._dashboard = st._dashboard :=
  ⟨rfl, rfl, rfl, rfl, rfl, rfl, rfl⟩

/-- C7: non-blocking `scale n` on an initialized controller issues exactly
one patch call setting the worker deployment's replicas to `n`, performs no
worker-count query and no connection attempt, and leaves the state (in
particular the memoized client) unchanged. -/
theorem C7_nonblocking_scale (st : DaskCluster) (n : Nat)
    (orc : Nat → ConnAttempt) (counts : List Nat)
    (h : st._initialized = true) :
    st.scale n false orc counts =
      ⟨none, st,
       [PlatformCall.patchDeployment st.namespace' st.name_workers_deployment n],
       0, 0, none⟩ := by
  simp [DaskCluster.scale, h]

/-- Witness for C7: `Scale(3, blocking=false)` on the concrete ready
controller patches `dask-workers-alice` to 3 replicas and does nothing else. -/
theorem C7_nonblocking_scale_witness :
    readyCluster._initialized = true ∧
    readyCluster.scale 3 false sampleOrc [5] =
      ⟨none, readyCluster,
       [PlatformCall.patchDeployment "ns1" "dask-workers-alice" 3], 0, 0, none⟩ :=
  ⟨rfl, (C7_nonblocking_scale readyCluster 3 sampleOrc [5] rfl).trans (by decide)⟩

/-- C8: the four derived resource names depend only on `cluster_id` — two
controllers agreeing on `cluster_id` have identical names whatever their
namespace, templates or mutable state — and the scheduler deployment name
coincides with the scheduler service name. -/
theorem C8_names_pure (st1 st2 : DaskCluster) (h : st1.cluster_id = st2.cluster_id) :
    st1.resourceNames = st2.resourceNames ∧
    st1.name_scheduler_deployment = st1.name_scheduler_service := by
  refine ⟨?_, rfl⟩
  simp [DaskCluster.resourceNames, DaskCluster.name_scheduler_service,
        DaskCluster.name_scheduler_dashboard_service,
        DaskCluster.name_scheduler_deployment,
        DaskCluster.name_workers_deployment, h]

/-- Witness for C8 at two concrete controllers sharing `cluster_id = "alice"`
but differing in namespace, templates and mutable state. -/
theorem C8_names_pure_witness :
    freshCluster.cluster_id = otherCluster.cluster_id ∧
    freshCluster.namespace' ≠ otherCluster.namespace' ∧
    (freshCluster.resourceNames = otherCluster.resourceNames ∧
     freshCluster.name_scheduler_deployment = freshCluster.name_scheduler_service) :=
  ⟨rfl, by decide, C8_names_pure freshCluster otherCluster rfl⟩

/-- C1 counterexample: on an initialized controller with no memoized client
and `retries = 2`, the very first connection attempt succeeds (with handle
0), yet a second attempt is still made (`attempts = 2`) and the memoized
client is the one produced by that second attempt (handle 1, not 0): the
retry loop has no break, so the claim that no further connection attempt
happens after the first success — and that the first success is what gets
memoized — is false. -/
theorem C1_counterexample :
    readyCluster._initialized = true ∧
    readyCluster._client = none ∧
    sampleOrc 0 = ConnAttempt.ok 0 ∧
    (readyCluster.make_dask_client sampleOrc 10 2).attempts = 2 ∧
    (readyCluster.make_dask_client sampleOrc 10 2).ret = some 1 ∧
    ¬((readyCluster.make_dask_client sampleOrc 10 2).attempts ≤ 1 ∧
      (readyCluster.make_dask_client sampleOrc 10 2).ret = some 0) := by
  decide

/-- C1 (amended): on an initialized controller with no memoized client,
`make_dask_client` performs exactly `retries` connection attempts — the
loop body catches connection-failure and timeout errors and has no break,
so success does not stop it — raises nothing, and memoizes exactly what it
returns: `none` when every attempt fails, and the handle of the *last*
successful attempt otherwise.  (With a memoized client or an uninitialized
controller no attempt is made; see C3.) -/
theorem C1_connect_retries (st : DaskCluster) (orc : Nat → ConnAttempt)
    (timeout retries : Nat)
    (h1 : st._initialized = true) (h2 : st._client = none) :
    (st.make_dask_client orc timeout retries).err = none ∧
    (st.make_dask_client orc timeout retries).attempts = retries ∧
    (st.make_dask_client orc timeout retries).st =
      { st with _client := (st.make_dask_client orc timeout retries).ret } ∧
    ((∀ i, i < retries → (orc i).isOk = false) →
      (st.make_dask_client orc timeout retries).ret = none) ∧
    (∀ j hdl, j < retries → orc j = ConnAttempt.ok hdl →
      (∀ i, j < i → i < retries → (orc i).isOk = false) →
      (st.make_dask_client orc timeout retries).ret = some hdl) := by
  have hbase : st.make_dask_client orc timeout retries =
      ⟨none, { st with _client := connectFold orc retries },
       connectFold orc retries, retries⟩ := by
    simp [DaskCluster.make_dask_client, h1, h2]
  rw [hbase]
  refine ⟨rfl, rfl, rfl, ?_, ?_⟩
  · intro hall
    exact connectFold_all_fail orc retries hall
  · intro j hdl hj hoj hafter
    exact connectFold_last_ok orc j hdl retries hj hoj hafter

/-- Witness for the amended C1: with all attempts succeeding and
`retries = 2`, exactly 2 attempts are made and the handle of attempt 1
(the last one) is returned. -/
theorem C1_connect_retries_witness :
    readyCluster._initialized = true ∧
    readyCluster._client = none ∧
    (readyCluster.make_dask_client sampleOrc 10 2).attempts = 2 ∧
    (readyCluster.make_dask_client sampleOrc 10 2).ret = some 1 :=
  ⟨rfl, rfl,
   (C1_connect_retries readyCluster sampleOrc 10 2 rfl rfl).2.1,
   (C1_connect_retries readyCluster sampleOrc 10 2 rfl rfl).2.2.2.2 1 1 (by decide) rfl
     (by intro i hi1 hi2; omega)⟩

/-- C2: a blocking `scale n` on an initialized controller returns
successfully exactly at the first worker-count reading equal to `n`: when
the wait loop exits at reading `k`, that reading is `n`, every earlier
reading was not `n` (in particular neither `n-1` nor `n+1` ends the wait),
and `k + 1` worker-count queries were made. -/
theorem C2_blocking_scale_exact_count (st : DaskCluster) (n : Nat)
    (orc : Nat → ConnAttempt) (counts : List Nat) (k : Nat)
    (hinit : st._initialized = true)
    (h : (st.scale n true orc counts).stoppedAt = some k) :
    (st.scale n true orc counts).err = none ∧
    (st.scale n true orc counts).countQueries = k + 1 ∧
    counts[k]? = some n ∧
    ∀ j, j < k → counts[j]? ≠ some n := by
  rcases hr : (st.make_dask_client orc 10 20).ret with _ | c
  · exfalso
    simp [DaskCluster.scale, hinit, hr] at h
  · rcases hwk : waitForWorkers n counts with _ | k'
    · exfalso
      simp [DaskCluster.scale, hinit, hr, hwk] at h
    · have hk : k' = k := by
        simpa [DaskCluster.scale, hinit, hr, hwk] using h
      subst hk
      obtain ⟨h1, h2⟩ := waitForWorkers_eq_some n counts k' hwk
      refine ⟨?_, ?_, h1, h2⟩ <;> simp [DaskCluster.scale, hinit, hr, hwk]

/-- Witness for C2: blocking `scale 3` with successive readings 2, 4, 3
exits at the third reading, having rejected 2 and 4 (below and above). -/
theorem C2_blocking_scale_exact_count_witness :
    readyCluster._initialized = true ∧
    (readyCluster.scale 3 true sampleOrc [2, 4, 3]).stoppedAt = some 2 ∧
    (readyCluster.scale 3 true sampleOrc [2, 4, 3]).err = none ∧
    (readyCluster.scale 3 true sampleOrc [2, 4, 3]).countQueries = 3 :=
  ⟨rfl, by decide,
   (C2_blocking_scale_exact_count readyCluster 3 sampleOrc [2, 4, 3] 2 rfl (by decide)).1,
   (C2_blocking_scale_exact_count readyCluster 3 sampleOrc [2, 4, 3] 2 rfl (by decide)).2.1⟩

/-- The environment entry `create` appends to the worker's first container:
the scheduler service's internal `cluster_ip:port`. -/
def schedulerEnvEntry (o : CreateOracle) : EnvVar :=
  ⟨"DASK_SCHEDULER_ADDRESS",
   o.serviceSchedulerResp.cluster_ip ++ ":" ++ toString o.serviceSchedulerResp.port⟩

/-- The worker pod template as submitted by `create`: the original first
container with the scheduler-address entry appended to its env, the
remaining containers untouched. -/
def submittedWorkerSpec (c : Container) (cs : List Container) (o : CreateOracle) : PodSpec :=
  ⟨{ c with env := c.env ++ [schedulerEnvEntry o] } :: cs⟩

/-- As long as the worker template has a first container, the calls issued
by `create` are the two service creations, the two deployment creations,
then one pod-list request per discovery poll — whatever the poll outcome. -/
theorem create_calls_eq (st : DaskCluster) (o : CreateOracle)
    (c : Container) (cs : List Container)
    (hw : st.worker_pod_spec.containers = c :: cs) :
    (st.create o).calls =
      [PlatformCall.createService st.namespace' st.name_scheduler_service 8786
         (schedulerLabels st.cluster_id),
       PlatformCall.createService st.namespace' st.name_scheduler_dashboard_service 8787
         (schedulerLabels st.cluster_id),
       PlatformCall.createDeployment st.namespace' st.name_scheduler_deployment 1
         (schedulerLabels st.cluster_id) st.scheduler_pod_spec,
       PlatformCall.createDeployment st.namespace' st.name_workers_deployment 0
         (workerLabels st.cluster_id) (submittedWorkerSpec c cs o)] ++
      List.replicate (findHostIP o.podPolls).2
        (PlatformCall.listPods st.namespace' (schedulerPodSelector st.cluster_id)) := by
  rcases hfp : findHostIP o.podPolls with ⟨res, kk⟩
  cases res <;>
    simp [DaskCluster.create, injectWorkerEnv, hw, hfp,
          submittedWorkerSpec, schedulerEnvEntry]

/-- As long as the worker template has a first container, `create` fails
exactly as the discovery loop does. -/
theorem create_err_eq (st : DaskCluster) (o : CreateOracle)
    (c : Container) (cs : List Container)
    (hw : st.worker_pod_spec.containers = c :: cs) :
    (st.create o).err =
      match (findHostIP o.podPolls).1 with
      | Except.error e => some e
      | Except.ok _ => none := by
  rcases hfp : findHostIP o.podPolls with ⟨res, kk⟩
  cases res <;> simp [DaskCluster.create, injectWorkerEnv, hw, hfp]

/-- C5: a successful `create` issues exactly 2 service-create calls (ports
8786 and 8787) and exactly 2 deployment-create calls (scheduler with 1
replica, workers with 0) whose label dicts contain `user = cluster_id`,
followed only by pod-list polls; it then stores
`tcp://host:schedulerNodePort` and `http://host:dashboardNodePort` built
from the discovered host IP and the two allocated node ports, and marks the
controller initialized. -/
theorem C5_create_calls_and_addresses (st : DaskCluster) (o : CreateOracle)
    (c : Container) (cs : List Container) (ip : String) (k : Nat)
    (hw : st.worker_pod_spec.containers = c :: cs)
    (hip : findHostIP o.podPolls = (Except.ok ip, k)) :
    (st.create o).err = none ∧
    (st.create o).st._initialized = true ∧
    (st.create o).st._scheduler =
      some ("tcp://" ++ ip ++ ":" ++ toString o.serviceSchedulerResp.node_port) ∧
    (st.create o).st._dashboard =
      some ("http://" ++ ip ++ ":" ++ toString o.serviceDashboardResp.node_port) ∧
    (st.create o).calls =
      [PlatformCall.createService st.namespace' st.name_scheduler_service 8786
         (schedulerLabels st.cluster_id),
       PlatformCall.createService st.namespace' st.name_scheduler_dashboard_service 8787
         (schedulerLabels st.cluster_id),
       PlatformCall.createDeployment st.namespace' st.name_scheduler_deployment 1
         (schedulerLabels st.cluster_id) st.scheduler_pod_spec,
       PlatformCall.createDeployment st.namespace' st.name_workers_deployment 0
         (workerLabels st.cluster_id) (submittedWorkerSpec c cs o)] ++
      List.replicate k
        (PlatformCall.listPods st.namespace' (schedulerPodSelector st.cluster_id)) ∧
    ("user", st.cluster_id) ∈ schedulerLabels st.cluster_id ∧
    ("user", st.cluster_id) ∈ workerLabels st.cluster_id := by
  refine ⟨?_, ?_, ?_, ?_, ?_, ?_, ?_⟩
  · rw [create_err_eq st o c cs hw, hip]
  · simp [DaskCluster.create, injectWorkerEnv, hw, hip]
  · simp [DaskCluster.create, injectWorkerEnv, hw, hip]
  · simp [DaskCluster.create, injectWorkerEnv, hw, hip]
  · rw [create_calls_eq st o c cs hw, hip]
  · simp [schedulerLabels]
  · simp [workerLabels]

/-- Oracle of the end-to-end scenario of the spec: internal service data,
node ports 31000/31001, one host-less poll then host `10.0.0.5`. -/
def sampleOracle : CreateOracle :=
  { serviceSchedulerResp := ⟨"10.96.0.10", 8786, 31000⟩,
    serviceDashboardResp := ⟨"10.96.0.11", 8787, 31001⟩,
    podPolls := [[⟨none⟩], [⟨some "10.0.0.5"⟩]] }

/-- Witness for C5 on the spec's end-to-end scenario
(`ns1`/`alice`, host `10.0.0.5`, node ports 31000/31001). -/
theorem C5_create_calls_and_addresses_witness :
    freshCluster.worker_pod_spec.containers = sampleContainer :: [] ∧
    findHostIP sampleOracle.podPolls = (Except.ok "10.0.0.5", 2) ∧
    (freshCluster.create sampleOracle).err = none ∧
    (freshCluster.create sampleOracle).st._initialized = true ∧
    (freshCluster.create sampleOracle).st._scheduler = some "tcp://10.0.0.5:31000" ∧
    (freshCluster.create sampleOracle).st._dashboard = some "http://10.0.0.5:31001" := by
  have h := C5_create_calls_and_addresses freshCluster sampleOracle
    sampleContainer [] "10.0.0.5" 2 rfl rfl
  exact ⟨rfl, rfl, h.1, h.2.1,
    h.2.2.1.trans (by decide), h.2.2.2.1.trans (by decide)⟩

/-- C6: the worker template submitted by `create` is the parsed original
with exactly one environment entry — the scheduler's internal
`cluster_ip:port` address — appended to its first container: the image,
args and other fields of that container, all further containers, and every
pre-existing env entry are unmodified, and apart from the four creation
calls the platform only receives pod-list requests. -/
theorem C6_worker_env_injection (st : DaskCluster) (o : CreateOracle)
    (c : Container) (cs : List Container)
    (hw : st.worker_pod_spec.containers = c :: cs) :
    (∃ pollTail : List PlatformCall,
      (st.create o).calls =
        [PlatformCall.createService st.namespace' st.name_scheduler_service 8786
           (schedulerLabels st.cluster_id),
         PlatformCall.createService st.namespace' st.name_scheduler_dashboard_service 8787
           (schedulerLabels st.cluster_id),
         PlatformCall.createDeployment st.namespace' st.name_scheduler_deployment 1
           (schedulerLabels st.cluster_id) st.scheduler_pod_spec,
         PlatformCall.createDeployment st.namespace' st.name_workers_deployment 0
           (workerLabels st.cluster_id) (submittedWorkerSpec c cs o)] ++ pollTail ∧
      ∀ call ∈ pollTail,
        call = PlatformCall.listPods st.namespace' (schedulerPodSelector st.cluster_id)) ∧
    (submittedWorkerSpec c cs o).containers =
      { c with env := c.env ++ [schedulerEnvEntry o] } :: cs ∧
    (c.env ++ [schedulerEnvEntry o]).length = c.env.length + 1 ∧
    (∀ i, i < c.env.length → (c.env ++ [schedulerEnvEntry o])[i]? = c.env[i]?) ∧
    (c.env ++ [schedulerEnvEntry o])[c.env.length]? = some (schedulerEnvEntry o) := by
  refine ⟨⟨List.replicate (findHostIP o.podPolls).2
      (PlatformCall.listPods st.namespace' (schedulerPodSelector st.cluster_id)),
      create_calls_eq st o c cs hw, ?_⟩, rfl, by simp, ?_, ?_⟩
  · intro call hcall
    exact List.eq_of_mem_replicate hcall
  · intro i hi
    exact List.getElem?_append_left hi
  · rw [List.getElem?_append_right (Nat.le_refl _)]
    simp

/-- Witness for C6 on the concrete scenario: the submitted worker template
keeps the original entry and gains `DASK_SCHEDULER_ADDRESS=10.96.0.10:8786`. -/
theorem C6_worker_env_injection_witness :
    freshCluster.worker_pod_spec.containers = sampleContainer :: [] ∧
    (submittedWorkerSpec sampleContainer [] sampleOracle).containers =
      { sampleContainer with
          env := [⟨"EXTRA_PIP_PACKAGES", "s3fs"⟩,
                  ⟨"DASK_SCHEDULER_ADDRESS", "10.96.0.10:8786"⟩] } :: [] := by
  have h := C6_worker_env_injection freshCluster sampleOracle sampleContainer [] rfl
  exact ⟨rfl, h.2.1.trans (by decide)⟩

/-- C9: the discovery loop of `create` indexes the first pod of each poll
response without a guard.  When every response holds at least one pod, the
indexing error cannot occur; but as soon as a response is empty (after any
run of non-empty host-less responses), `create` stops with the indexing
error at exactly that poll instead of sleeping and retrying. -/
theorem C9_pod_index_guard (st : DaskCluster) (o : CreateOracle)
    (c : Container) (cs : List Container)
    (hw : st.worker_pod_spec.containers = c :: cs) :
    ((∀ r ∈ o.podPolls, r ≠ []) →
      (st.create o).err ≠ some CreateErr.podIndexError) ∧
    (∀ pre post, o.podPolls = pre ++ [] :: post →
      (∀ r ∈ pre, ∃ p ps, r = p :: ps ∧ p.host_ip = none) →
      (st.create o).err = some CreateErr.podIndexError ∧
      (findHostIP o.podPolls).2 = pre.length + 1) := by
  constructor
  · intro hne
    have hnp := findHostIP_nonempty o.podPolls hne
    rw [create_err_eq st o c cs hw]
    rcases hres : (findHostIP o.podPolls).1 with e | ip
    · intro hcontra
      simp only [Option.some.injEq] at hcontra
      exact hnp (by rw [hres, hcontra])
    · simp
  · intro pre post hpolls hpre
    have hfull := findHostIP_empty_hit pre post hpre
    constructor
    · rw [create_err_eq st o c cs hw, hpolls, hfull]
    · rw [hpolls, hfull]

/-- Oracle whose second poll response is an empty pod list. -/
def emptyPollOracle : CreateOracle :=
  { serviceSchedulerResp := ⟨"10.96.0.10", 8786, 31000⟩,
    serviceDashboardResp := ⟨"10.96.0.11", 8787, 31001⟩,
    podPolls := [[⟨none⟩], []] }

/-- Witness for C9: one host-less response then an empty one makes `create`
fail with the indexing error on the second poll. -/
theorem C9_pod_index_guard_witness :
    freshCluster.worker_pod_spec.containers = sampleContainer :: [] ∧
    emptyPollOracle.podPolls = [[⟨none⟩]] ++ [] :: [] ∧
    (freshCluster.create emptyPollOracle).err = some CreateErr.podIndexError ∧
    (findHostIP emptyPollOracle.podPolls).2 = 2 := by
  have h := (C9_pod_index_guard freshCluster emptyPollOracle sampleContainer [] rfl).2
    [[⟨none⟩]] [] rfl
    (by
      intro r hr
      simp only [List.mem_singleton] at hr
      subst hr
      exact ⟨⟨none⟩, [], rfl, rfl⟩)
  exact ⟨rfl, rfl, h.1, h.2⟩

end DaskK8
